import Mathlib

/-
Verification of the Stripe-to-Jira provisioning orchestrator.

The repository contains several variants of the same webhook/orchestration
pipeline.  We shallowly embed each variant that the checked claims touch:

  * `processCheckoutSessionP1` / `checkAndInviteCustomer` /
    `getJiraAccountIdByEmail` : the retry-capable variant (src/unnamed/part_001);
  * `processCheckoutSessionP0` : the multi-workflow variant (src/unnamed/part_000);
  * `processCheckoutSessionV2` / `checkAndInviteCustomerV1` : the two
    cloud-function variants concatenated in src/index.js;
  * `stripetojira` : the fire-and-forget webhook handler shared by the
    cloud-function variants;
  * `stripetojiraExpress` : the express-app variant at the end of src/index.js.

External HTTP calls are modelled by explicit environments supplying each
call's outcome; the JS truthiness conventions (`x || d`, optional chaining)
are modelled by `jsTruthy` / `jsDefault` / `jsOrStr`.
-/

/-- JS `toLowerCase` (ASCII), evaluated character-wise. -/
def strToLower (s : String) : String :=
  String.mk (s.data.map Char.toLower)

/-- JS `toUpperCase` (ASCII), evaluated character-wise. -/
def strToUpper (s : String) : String :=
  String.mk (s.data.map Char.toUpper)

/-- JS `String.prototype.includes`: `pat` occurs as a contiguous substring. -/
def strIncludes (s pat : String) : Bool :=
  (List.range (s.data.length + 1)).any (fun i => pat.data.isPrefixOf (s.data.drop i))

/-- JS truthiness for an optional string: `undefined` and `""` are falsy. -/
def jsTruthy : Option String → Bool
  | none => false
  | some s => !(s == "")

/-- JS `a || b` on optional strings (used for metadata/env fallbacks). -/
def jsOrStr (a b : Option String) : Option String :=
  if jsTruthy a then a else b

/-- JS `x || d` producing a plain string default. -/
def jsDefault (a : Option String) (d : String) : String :=
  if jsTruthy a then a.getD d else d

/-- JS template interpolation of a possibly-`undefined` string. -/
def jsShow (a : Option String) : String :=
  a.getD "undefined"

/-- JS `parseInt(s, 10)`: skip leading whitespace, optional sign, longest
digit prefix; `none` models `NaN` (no digits found). -/
def jsParseInt10 (s : String) : Option Int :=
  let cs := s.data.dropWhile (fun c => c == ' ' || c == '\t' || c == '\n' || c == '\r')
  let signAndRest : Bool × List Char :=
    match cs with
    | '-' :: r => (true, r)
    | '+' :: r => (false, r)
    | r => (false, r)
  let ds := signAndRest.2.takeWhile Char.isDigit
  if ds.isEmpty then none
  else
    let n : Nat := ds.foldl (fun a c => a * 10 + (c.toNat - 48)) 0
    some (if signAndRest.1 then -(n : Int) else (n : Int))

/-- `parseInt(metadata.duration || '5', 10)` from every orchestrator variant. -/
def resolvedDurationDays (duration : Option String) : Option Int :=
  jsParseInt10 (jsDefault duration "5")

/-- Two-digit zero padding, as produced by `toISOString`. -/
def pad2 (n : Nat) : String :=
  if n < 10 then "0" ++ toString n else toString n

/-- Four-digit zero padding for the year of `toISOString`. -/
def pad4 (n : Nat) : String :=
  if n < 10 then "000" ++ toString n
  else if n < 100 then "00" ++ toString n
  else if n < 1000 then "0" ++ toString n
  else toString n

/-- Proleptic Gregorian civil date from a count of days since 1970-01-01
(the date arithmetic underlying `Date.prototype.toISOString`). -/
def civilFromDays (day : Int) : Int × Int × Int :=
  let z := day + 719468
  let era := z / 146097
  let doe := z % 146097
  let yoe := (doe - doe / 1460 + doe / 36524 - doe / 146096) / 365
  let y := yoe + era * 400
  let doy := doe - (365 * yoe + yoe / 4 - yoe / 100)
  let mp := (5 * doy + 2) / 153
  let d := doy - (153 * mp + 2) / 5 + 1
  let m := if mp < 10 then mp + 3 else mp - 9
  (if m ≤ 2 then y + 1 else y, m, d)

/-- Render a day number as the `YYYY-MM-DD` date part of `toISOString`. -/
def dateStr (day : Int) : String :=
  let c := civilFromDays day
  pad4 c.1.toNat ++ "-" ++ pad2 c.2.1.toNat ++ "-" ++ pad2 c.2.2.toNat

/-- UTC day number of a millisecond timestamp (`toISOString` date part). -/
def epochDay (ms : Int) : Int :=
  ms / 86400000

/-- `startDate`/`endDate` computation shared by every orchestrator variant:
`now.toISOString().split('T')[0]` and
`new Date(now.getTime() + durationDays*24*60*60*1000).toISOString().split('T')[0]`.
A `none` duration models `NaN`, on which `toISOString` throws a `RangeError`,
so the whole computation fails. -/
def computeDates (nowMs : Int) (dur : Option Int) : Option (String × String) :=
  match dur with
  | none => none
  | some n => some (dateStr (epochDay nowMs), dateStr (epochDay (nowMs + n * 86400000)))

/-- `session.customer_details.address` as received from Stripe. -/
structure RawAddress where
  line1 : Option String
  city : Option String
  postal_code : Option String
  country : Option String
  deriving DecidableEq, Repr, Inhabited

/-- `session.customer_details` as received from Stripe. -/
structure RawCustomerDetails where
  email : Option String
  name : Option String
  phone : Option String
  address : Option RawAddress
  deriving DecidableEq, Repr, Inhabited

/-- `session.metadata` routing keys read by the orchestrator variants. -/
structure RawMetadata where
  project : Option String
  jsmProjectKey : Option String
  jsmServiceDeskId : Option String
  issue : Option String
  summary : Option String
  duration : Option String
  deriving DecidableEq, Repr, Inhabited

/-- The raw checkout-session notification body. -/
structure RawSession where
  metadata : Option RawMetadata
  customer_details : Option RawCustomerDetails
  amount_total : Option Nat
  currency : Option String
  deriving DecidableEq, Repr, Inhabited

/-- `session.metadata || {}`. -/
def metaOf (s : RawSession) : RawMetadata :=
  s.metadata.getD default

/-- `session.customer_details || {}`. -/
def detailsOf (s : RawSession) : RawCustomerDetails :=
  s.customer_details.getD default

/-- `[address.line1, address.city, address.postal_code, address.country]
.filter(Boolean).join(', ') || 'N/A'`. -/
def companyAddressOf (a : RawAddress) : String :=
  let parts := [a.line1, a.city, a.postal_code, a.country].filterMap
    (fun o => if jsTruthy o then o else none)
  let j := String.intercalate ", " parts
  if j == "" then "N/A" else j

/-- `(amount_total || 0) / 100` rendered with `toFixed(2)` (minor units). -/
def amountFixed2 (minor : Nat) : String :=
  toString (minor / 100) ++ "." ++ pad2 (minor % 100)

/-- The normalized customer view (`customerData` in the source). -/
structure CustomerData where
  name : String
  email : Option String
  phone : String
  address : String
  amount : String
  deriving DecidableEq, Repr

/-- The payload normalizer of every orchestrator variant: extracts the
customer contact fields from the raw session, defaulting missing name and
phone to `"N/A"`, dropping missing address components, and formatting the
paid amount as `"<amount> <CURRENCY>"`.  It is a total function: missing
nested objects default to `{}` via `|| {}`. -/
def customerDataOf (s : RawSession) : CustomerData :=
  let d := detailsOf s
  let addr := d.address.getD default
  { name := jsDefault d.name "N/A"
    email := d.email
    phone := jsDefault d.phone "N/A"
    address := companyAddressOf addr
    amount := amountFixed2 (s.amount_total.getD 0) ++ " " ++
      jsDefault (s.currency.map strToUpper) "EUR" }

/-- `metadata.issue || 'Task'` (part_000 and index.js variant 2). -/
def issueTypeOf (s : RawSession) : String :=
  jsDefault (metaOf s).issue "Task"

/-- `metadata.project?.toUpperCase()` (part_000 and index.js variant 2). -/
def projectKeyOf (s : RawSession) : Option String :=
  (metaOf s).project.map strToUpper

/-- Environment-supplied configuration (`process.env`). -/
structure EnvVars where
  jsmProjectKey : Option String
  jsmServiceDeskId : Option String
  deriving DecidableEq, Repr, Inhabited

/-- `metadata.jsmProjectKey?.toUpperCase() || process.env.JIRA_JSM_PROJECT_KEY`. -/
def jsmProjectKeyOf (s : RawSession) (ev : EnvVars) : Option String :=
  jsOrStr ((metaOf s).jsmProjectKey.map strToUpper) ev.jsmProjectKey

/-- `metadata.jsmServiceDeskId || process.env.JIRA_JSM_SERVICE_DESK_ID`. -/
def jsmServiceDeskIdOf (s : RawSession) (ev : EnvVars) : Option String :=
  jsOrStr (metaOf s).jsmServiceDeskId ev.jsmServiceDeskId

/-- `metadata.summary || 'New Task'`. -/
def summaryTaskOf (s : RawSession) : String :=
  jsDefault (metaOf s).summary "New Task"

/-- `metadata.summary || 'New Support Request'` (part_001 and index.js variant 1). -/
def summarySupportOf (s : RawSession) : String :=
  jsDefault (metaOf s).summary "New Support Request"

/-- Resolved duration of a session's routing metadata. -/
def durationOf (s : RawSession) : Option Int :=
  resolvedDurationDays (metaOf s).duration

/-- An axios error response (`err.response`): HTTP status plus the optional
`data.errorMessage` body field. -/
structure ErrResponse where
  status : Nat
  errorMessage : Option String
  deriving DecidableEq, Repr

/-- Outcome of one external HTTP call. -/
inductive CallResult (α : Type) where
  | ok (val : α)
  | fail (e : ErrResponse)
  deriving DecidableEq, Repr

/-- Observable side effects of the identity resolver. -/
inductive Ev where
  | createCall
  | searchCall (attempt : Nat)
  | sleepMs (ms : Nat)
  | addCall
  deriving DecidableEq, Repr

/-- Number of directory search attempts in a trace. -/
def countSearch (t : List Ev) : Nat :=
  t.countP (fun e => match e with | Ev.searchCall _ => true | _ => false)

/-- Number of sleeps in a trace. -/
def countSleep (t : List Ev) : Nat :=
  t.countP (fun e => match e with | Ev.sleepMs _ => true | _ => false)

/-- External directory behaviour for one orchestration run: the outcome of
the create-customer call (`ok` carries the response's optional `accountId`),
the outcome of each successive search attempt, and the outcome of the
add-to-service-desk call. -/
structure DirEnv where
  createResult : CallResult (Option String)
  search : Nat → CallResult (List String)
  addResult : CallResult Unit

/-- `getJiraAccountIdByEmail` (src/unnamed/part_001, lines 37-58): up to
`retries` search attempts; a non-empty result returns its first account id;
failed attempts and errors fall through; a fixed 1.5 s sleep separates
consecutive attempts (none after the last).  `k` indexes attempts across the
whole run; returns the found id, the next attempt index, and the trace. -/
def getJiraAccountIdByEmail (dir : DirEnv) : Nat → Nat → Option String × Nat × List Ev
  | k, 0 => (none, k, [])
  | k, n + 1 =>
    let hit : Option String :=
      match dir.search k with
      | .ok (a :: _) => some a
      | _ => none
    match hit with
    | some a => (some a, k + 1, [Ev.searchCall k])
    | none =>
      if n = 0 then (none, k + 1, [Ev.searchCall k])
      else
        let rest := getJiraAccountIdByEmail dir (k + 1) n
        (rest.1, rest.2.1, Ev.searchCall k :: Ev.sleepMs 1500 :: rest.2.2)

/-- First account id a search within the next `n` attempts would find. -/
def firstSearchHit (dir : DirEnv) : Nat → Nat → Option String
  | _, 0 => none
  | k, n + 1 =>
    match dir.search k with
    | .ok (a :: _) => some a
    | _ => firstSearchHit dir (k + 1) n

/-- Conflict classification of the create-customer step (part_001 lines
82-85 and index.js lines 43-46): HTTP 409 or a message containing
"already exists". -/
def isCreateConflict (e : ErrResponse) : Bool :=
  e.status == 409 || strIncludes (e.errorMessage.getD "") "already exists"

/-- Absorbed-error classification of the association step in part_001
(lines 113-114): HTTP 400 or a message containing "already belongs to". -/
def isAddAbsorbedP1 (e : ErrResponse) : Bool :=
  e.status == 400 || strIncludes (e.errorMessage.getD "") "already belongs to"

/-- Absorbed-error classification of the association step in index.js
variant 1 (lines 67-68): HTTP 409 or a message containing
"already belongs to". -/
def isAddAbsorbedV1 (e : ErrResponse) : Bool :=
  e.status == 409 || strIncludes (e.errorMessage.getD "") "already belongs to"

/-- `checkAndInviteCustomer` (src/unnamed/part_001, lines 64-122).
Step 1 creates the customer: on success `accountId := res.accountId || null`
and `createdNewUser := true`; a conflict leaves both unset; any other error
is fatal.  Step 2 searches with 3 retries when no id is known.  Without an
id the function returns `false`.  Step 3 adds the customer to the service
desk, absorbing HTTP 400 / "already belongs to" and otherwise failing.
Returns the JS return value (or the thrown error), the next search-attempt
index, and the trace. -/
def checkAndInviteCustomer (dir : DirEnv) : Except ErrResponse Bool × Nat × List Ev :=
  let step1 : Except ErrResponse (Option String × Bool) :=
    match dir.createResult with
    | .ok optId => .ok ((if jsTruthy optId then optId else none), true)
    | .fail e => if isCreateConflict e then .ok (none, false) else .error e
  match step1 with
  | .error e => (.error e, 0, [Ev.createCall])
  | .ok (acc0, createdNewUser) =>
    let searched : Option String × Nat × List Ev :=
      match acc0 with
      | some a => (some a, 0, [])
      | none => getJiraAccountIdByEmail dir 0 3
    match searched with
    | (none, k1, t1) => (.ok false, k1, Ev.createCall :: t1)
    | (some _, k1, t1) =>
      match dir.addResult with
      | .ok _ => (.ok createdNewUser, k1, Ev.createCall :: t1 ++ [Ev.addCall])
      | .fail e =>
        if isAddAbsorbedP1 e then (.ok createdNewUser, k1, Ev.createCall :: t1 ++ [Ev.addCall])
        else (.error e, k1, Ev.createCall :: t1 ++ [Ev.addCall])

/-- `{ accountId: string | absent, isNewIdentity: boolean }`. -/
structure IdentityResolution where
  accountId : Option String
  isNewIdentity : Bool
  deriving DecidableEq, Repr

/-- The identity-resolution section of `processCheckoutSession`
(src/unnamed/part_001, lines 222-242): onboarding runs iff both service-desk
keys are configured; a `false` onboarding result triggers one extra
single-attempt search; the resolution pairs the orchestrator-level
`accountId` with `wasNewCustomer`. -/
def resolveIdentityP1 (dir : DirEnv) (hasKeys : Bool) :
    Except ErrResponse IdentityResolution × List Ev :=
  if hasKeys then
    match checkAndInviteCustomer dir with
    | (.error e, _, t) => (.error e, t)
    | (.ok wasNewCustomer, k1, t1) =>
      if wasNewCustomer then (.ok ⟨none, true⟩, t1)
      else
        let extra := getJiraAccountIdByEmail dir k1 1
        (.ok ⟨extra.1, false⟩, t1 ++ extra.2.2)
  else
    let extra := getJiraAccountIdByEmail dir 0 1
    (.ok ⟨extra.1, false⟩, extra.2.2)

/-- Whether the create-customer call succeeded (with or without an id). -/
def createSucceeded (dir : DirEnv) : Bool :=
  match dir.createResult with
  | .ok _ => true
  | .fail _ => false

/-- Whether the create-customer call's own response carried an account id. -/
def createReturnedId (dir : DirEnv) : Bool :=
  match dir.createResult with
  | .ok optId => jsTruthy optId
  | .fail _ => false

/-- The account id the onboarding step would know before the association
call: the create response's id, else the first hit of the 3-attempt search
(reached on create success without id or on an absorbed create conflict). -/
def onboardingResolvedId (dir : DirEnv) : Option String :=
  match dir.createResult with
  | .ok optId => if jsTruthy optId then optId else firstSearchHit dir 0 3
  | .fail e => if isCreateConflict e then firstSearchHit dir 0 3 else none

/-- `checkAndInviteCustomer` of index.js variant 1 (lines 33-76): creation
absorbs 409 / "already exists"; association absorbs 409 /
"already belongs to"; everything else is fatal. -/
structure V1Env where
  createResult : CallResult Unit
  addResult : CallResult Unit
  deriving DecidableEq, Repr

/-- index.js variant 1 `checkAndInviteCustomer` as a function of its call
outcomes. -/
def checkAndInviteCustomerV1 (env : V1Env) : Except ErrResponse Unit :=
  let step1 : Except ErrResponse Unit :=
    match env.createResult with
    | .ok _ => .ok ()
    | .fail e => if isCreateConflict e then .ok () else .error e
  match step1 with
  | .error e => .error e
  | .ok _ =>
    match env.addResult with
    | .ok _ => .ok ()
    | .fail e => if isAddAbsorbedV1 e then .ok () else .error e

def dirNoIdCreate : DirEnv := ⟨.ok none, fun _ => .ok ["acc-1"], .ok ()⟩

def dirConflictCreate : DirEnv := ⟨.fail ⟨409, some "already exists"⟩, fun _ => .ok [], .ok ()⟩

def isConflictSignalClaim (e : ErrResponse) : Bool :=
  e.status == 409 || strIncludes (e.errorMessage.getD "") "already exists" ||
    strIncludes (e.errorMessage.getD "") "already belongs to"

def dirAssocConflict : DirEnv := ⟨.ok (some "acc-9"), fun _ => .ok [], .fail ⟨409, some "Conflict"⟩⟩

/-- Reporter attribution: a resolved directory identity or raw email. -/
inductive ReporterRef where
  | accountId (id : String)
  | emailAddress (email : Option String)
  deriving DecidableEq, Repr

/-- `jiraAccountId ? { accountId: jiraAccountId } : { emailAddress: customerEmail }`. -/
def reporterOf (acc : Option String) (email : Option String) : ReporterRef :=
  match acc with
  | some a => ReporterRef.accountId a
  | none => ReporterRef.emailAddress email

/-- The single-attempt `getJiraAccountIdByEmail` of part_000 and index.js
variant 2: a missing email short-circuits to `null`; errors and empty
results yield `null`; otherwise the first match's account id. -/
def singleSearchAcc (email : Option String) (res : CallResult (List String)) : Option String :=
  if !jsTruthy email then none
  else
    match res with
    | .ok (a :: _) => some a
    | _ => none

/-- The role a created record plays in the workflow. -/
inductive RecKind where
  | serviceDesk
  | parent
  | child
  | confirmation
  deriving DecidableEq, Repr

/-- One record-creation call as issued to the external system. -/
structure RecordReq where
  kind : RecKind
  project : Option String
  summary : String
  description : String
  parentLink : Option String
  reporter : Option ReporterRef
  deriving DecidableEq, Repr

/-- Number of records of a given kind among the issued creation calls. -/
def countKind (k : RecKind) (rs : List RecordReq) : Nat :=
  rs.countP (fun r => decide (r.kind = k))

/-- The labelled description lines shared by the description builders
(Customer, Email, Phone, Company Address, Amount Paid, Start Date, End Date). -/
def buildCustomerDescriptionLines (c : CustomerData) (startDate endDate : String) :
    List String :=
  ["Customer: " ++ c.name,
   "Email: " ++ jsShow c.email,
   "Phone: " ++ c.phone,
   "Company Address: " ++ c.address,
   "Amount Paid: " ++ c.amount,
   "Start Date: " ++ startDate,
   "End Date: " ++ endDate]

/-- `buildCustomerDescriptionDoc` of index.js variant 1 (lines 81-95): an ADF
document of one paragraph per labelled line, modelled as the joined lines. -/
def buildCustomerDescriptionDoc (c : CustomerData) (startDate endDate : String) : String :=
  String.intercalate "\n" (buildCustomerDescriptionLines c startDate endDate)

/-- `buildCustomerDescriptionDoc` of part_001 (lines 127-137): a template
string with a leading and trailing newline around the same labelled lines. -/
def buildCustomerDescriptionDocP1 (c : CustomerData) (startDate endDate : String) : String :=
  "\n" ++ String.intercalate "\n" (buildCustomerDescriptionLines c startDate endDate) ++ "\n"

/-- `createJsmSupportTicket` (index.js variant 1, lines 100-117): one
service-desk issue with summary `"Support Request for <summary>"`, the built
description, dates, and the reporter object. -/
def createJsmSupportTicket (summary : String) (jsmProjectKey : Option String)
    (reporter : ReporterRef) (c : CustomerData) (startDate endDate : String) : RecordReq :=
  { kind := RecKind.serviceDesk
    project := jsmProjectKey
    summary := "Support Request for " ++ summary
    description := buildCustomerDescriptionDoc c startDate endDate
    parentLink := none
    reporter := some reporter }

/-- `createJsmCustomerRequest` (part_001, lines 142-174): one JSM customer
request whose `summary` field is the raw summary (no prefix), with the
part_001 description template; the creation call receives the reporter
object as an argument (the payload itself uses `raiseOnBehalfOf`). -/
def createJsmCustomerRequest (summary : String) (serviceDeskId : Option String)
    (reporter : ReporterRef) (c : CustomerData) (startDate endDate : String) : RecordReq :=
  { kind := RecKind.serviceDesk
    project := serviceDeskId
    summary := summary
    description := buildCustomerDescriptionDocP1 c startDate endDate
    parentLink := none
    reporter := some reporter }

/-- Modelled from the spec: `createJiraSoftwareWork` is called by part_000's
orchestrator (line 177) but defined nowhere under src/; §4.4 specifies it as
creating a parent grouping record (fixed name "New Client") in the workspace
project and then a child record linked to the parent carrying the full
description, dates, and reporter.  `epicKey` is the identifier the parent
creation returns; the child creation returns `taskKey` to the caller. -/
def createJiraSoftwareWork (softwareKey : Option String) (summary issueType : String)
    (reporter : ReporterRef) (c : CustomerData) (startDate endDate : String)
    (epicKey : String) : List RecordReq :=
  [{ kind := RecKind.parent
     project := softwareKey
     summary := "New Client"
     description := ""
     parentLink := none
     reporter := none },
   { kind := RecKind.child
     project := softwareKey
     summary := summary
     description := buildCustomerDescriptionDoc c startDate endDate
     parentLink := some epicKey
     reporter := some reporter }]

/-- Modelled from the spec: `createJsmOrderConfirmation` is called by
part_000's orchestrator (line 184) but defined nowhere under src/; §4.4
specifies it as one customer-visible confirmation record in the service desk
referencing the child record's identifier in its body. -/
def createJsmOrderConfirmation (summary taskKey : String) (jsmKey : Option String)
    (reporter : ReporterRef) : RecordReq :=
  { kind := RecKind.confirmation
    project := jsmKey
    summary := "Order received for \"" ++ summary ++ "\""
    description := "Internal Task: " ++ taskKey
    parentLink := none
    reporter := some reporter }

/-- `processCheckoutSession` of part_000 (lines 109-198), reduced to its
observable creation calls.  Onboarding (lines 156-162) absorbs every error,
so it issues no records and cannot abort; the reporter comes from a single
search attempt; the workflow branch is: support-with-JSM-key, else software
project (parent/child plus optional confirmation), else nothing.  `none`
models the `RangeError` thrown by the date computation on a `NaN` duration. -/
def processCheckoutSessionP0 (s : RawSession) (ev : EnvVars) (nowMs : Int)
    (searchRes : CallResult (List String)) (epicKey taskKey : String) :
    Option (List RecordReq) :=
  match computeDates nowMs (durationOf s) with
  | none => none
  | some dates =>
    let c := customerDataOf s
    let reporter := reporterOf (singleSearchAcc c.email searchRes) c.email
    let jsmKey := jsmProjectKeyOf s ev
    let software := projectKeyOf s
    some (
      if strToLower (issueTypeOf s) == "support" && jsTruthy jsmKey then
        [createJsmSupportTicket (summaryTaskOf s) jsmKey reporter c dates.1 dates.2]
      else if jsTruthy software then
        createJiraSoftwareWork software (summaryTaskOf s) (issueTypeOf s) reporter c
            dates.1 dates.2 epicKey ++
          (if jsTruthy jsmKey then
            [createJsmOrderConfirmation (summaryTaskOf s) taskKey jsmKey reporter]
          else [])
      else [])

/-- Call outcomes for one run of index.js variant 2: onboarding invite (its
`checkAndInviteCustomer` has no catch, lines 260-267), the single-attempt
account search, and the key returned by each creation call. -/
structure V2Env where
  inviteResult : CallResult Unit
  searchResult : CallResult (List String)
  supportKey : CallResult String
  epicKey : CallResult String
  taskKey : CallResult String
  confKey : CallResult String
  deriving DecidableEq, Repr

/-- Result of one index.js variant 2 run: the resolved account id, the
creation calls issued (in order), and whether the run aborted on an error. -/
structure V2Run where
  accountId : Option String
  records : List RecordReq
  aborted : Bool
  deriving DecidableEq, Repr

/-- `processCheckoutSession` of index.js variant 2 (lines 292-437): guard on
missing project key for non-support kinds; onboarding errors abort; support
kind issues one service-desk record; otherwise Epic, then Task linked to the
Epic's key, then an order confirmation referencing the Task's key.  `none`
models the `RangeError` thrown by the date computation on a `NaN` duration. -/
def processCheckoutSessionV2 (s : RawSession) (ev : EnvVars) (jiraDomain : String)
    (nowMs : Int) (env : V2Env) : Option V2Run :=
  match computeDates nowMs (durationOf s) with
  | none => none
  | some dates =>
    let c := customerDataOf s
    let projectKey := projectKeyOf s
    let issueType := issueTypeOf s
    if !jsTruthy projectKey && !(strToLower issueType == "support") then
      some ⟨none, [], false⟩
    else
      match env.inviteResult with
      | .fail _ => some ⟨none, [], true⟩
      | .ok _ =>
        let acc := singleSearchAcc c.email env.searchResult
        let reporter := reporterOf acc c.email
        if strToLower issueType == "support" then
          let rec1 : RecordReq :=
            { kind := RecKind.serviceDesk
              project := ev.jsmProjectKey
              summary := "Support Request for " ++ summaryTaskOf s
              description := String.intercalate "\n"
                ["A new support request has been submitted by the customer.",
                 "Customer: " ++ c.name,
                 "Email: " ++ jsShow c.email,
                 "Amount Paid: " ++ c.amount]
              parentLink := none
              reporter := some reporter }
          match env.supportKey with
          | .ok _ => some ⟨acc, [rec1], false⟩
          | .fail _ => some ⟨acc, [rec1], true⟩
        else
          let recE : RecordReq :=
            { kind := RecKind.parent
              project := projectKey
              summary := "New Client"
              description := ""
              parentLink := none
              reporter := none }
          match env.epicKey with
          | .fail _ => some ⟨acc, [recE], true⟩
          | .ok ek =>
            let recT : RecordReq :=
              { kind := RecKind.child
                project := projectKey
                summary := summaryTaskOf s
                description := buildCustomerDescriptionDoc c dates.1 dates.2
                parentLink := some ek
                reporter := some reporter }
            match env.taskKey with
            | .fail _ => some ⟨acc, [recE, recT], true⟩
            | .ok tk =>
              let recC : RecordReq :=
                { kind := RecKind.confirmation
                  project := ev.jsmProjectKey
                  summary := "Order received for \"" ++ summaryTaskOf s ++ "\""
                  description :=
                    "Your order has been received. Our team has created an internal task to begin work." ++
                      "\nInternal Task: " ++ jiraDomain ++ "/browse/" ++ tk
                  parentLink := none
                  reporter := some reporter }
              match env.confKey with
              | .ok _ => some ⟨acc, [recE, recT, recC], false⟩
              | .fail _ => some ⟨acc, [recE, recT, recC], true⟩

/-- Result of one part_001 run: the identity resolution and reporter (absent
when onboarding aborted the run), the creation calls issued, and the
resolver trace. -/
structure Part001Run where
  resolution : Option IdentityResolution
  reporter : Option ReporterRef
  records : List RecordReq
  trace : List Ev
  deriving DecidableEq, Repr

/-- `processCheckoutSession` of part_001 (lines 179-257): identity
resolution (onboarding iff both service-desk keys are configured, one extra
search when not newly created), reporter from the resolved account id, then
one JSM customer request iff the service-desk project key is configured; a
fatal resolver error is caught by the outer handler and issues no records.
`none` models the `RangeError` thrown on a `NaN` duration. -/
def processCheckoutSessionP1 (s : RawSession) (ev : EnvVars) (nowMs : Int)
    (dir : DirEnv) : Option Part001Run :=
  match computeDates nowMs (durationOf s) with
  | none => none
  | some dates =>
    let c := customerDataOf s
    let jsmKey := jsmProjectKeyOf s ev
    let deskId := jsmServiceDeskIdOf s ev
    let hasKeys := jsTruthy jsmKey && jsTruthy deskId
    match resolveIdentityP1 dir hasKeys with
    | (.error _, t) => some ⟨none, none, [], t⟩
    | (.ok res, t) =>
      let reporter := reporterOf res.accountId c.email
      some ⟨some res, some reporter,
        (if jsTruthy jsmKey then
          [createJsmCustomerRequest (summarySupportOf s) ev.jsmServiceDeskId reporter c
            dates.1 dates.2]
        else []), t⟩

/-- HTTP response sent back to the notification sender. -/
inductive HttpResponse where
  | ok200 (msg : String)
  | bad400 (msg : String)
  | err500 (msg : String)
  deriving DecidableEq, Repr

/-- An inbound webhook request: optional raw body, the outcome of
`stripe.webhooks.constructEvent` (valid or the error message), and the event
type. -/
structure InboundReq where
  rawBody : Option String
  sigOk : Bool
  sigErrMsg : String
  eventType : String
  deriving DecidableEq, Repr

/-- Observable outcome of the cloud-function webhook handler. -/
structure HandlerOutcome where
  response : HttpResponse
  verifyAttempted : Bool
  scheduled : Bool
  loggedFailure : Bool
  deriving DecidableEq, Repr

/-- `exports.stripetojira` of index.js variant 1 (lines 194-221), identical
in part_000 and part_001: missing raw body → 400 before verification;
verification failure → 400; otherwise respond 200 "Event received"
immediately and schedule background processing iff the event type is
`checkout.session.completed`; a downstream failure is only logged. -/
def stripetojira (req : InboundReq) (downstreamFails : Bool) : HandlerOutcome :=
  match req.rawBody with
  | none => ⟨HttpResponse.bad400 "Webhook Error: Missing raw body", false, false, false⟩
  | some _ =>
    if req.sigOk then
      let sched := req.eventType == "checkout.session.completed"
      ⟨HttpResponse.ok200 "Event received", true, sched, sched && downstreamFails⟩
    else
      ⟨HttpResponse.bad400 ("Webhook Error: " ++ req.sigErrMsg), true, false, false⟩

/-- The express-app variant of index.js (lines 486-613): after verification
it awaits the Jira calls and answers 200 only on success, 500 on any
creation failure; non-checkout events get 200 "Event ignored". -/
def stripetojiraExpress (req : InboundReq) (epicResult taskResult : CallResult String) :
    HttpResponse :=
  if !req.sigOk then HttpResponse.bad400 ("Webhook Error: " ++ req.sigErrMsg)
  else if !(req.eventType == "checkout.session.completed") then
    HttpResponse.ok200 "Event ignored"
  else
    match epicResult with
    | .fail _ => HttpResponse.err500 "Failed to create Jira issue"
    | .ok _ =>
      match taskResult with
      | .fail _ => HttpResponse.err500 "Failed to create Jira issue"
      | .ok _ => HttpResponse.ok200 "Jira Epic and Task created"

/-- A "support" notification whose service-desk key is not configured but
whose workspace project key is. -/
def s3 : RawSession :=
  ⟨some ⟨some "sw", none, none, some "Support", some "S", none⟩, none, none, none⟩

/-- A "support" notification with its service-desk key configured. -/
def s3b : RawSession :=
  ⟨some ⟨none, some "sup", none, some "Support", none, none⟩, none, none, none⟩

/-- A non-support notification with a configured workspace project key. -/
def s4 : RawSession :=
  ⟨some ⟨some "sw", none, none, none, none, none⟩, none, none, none⟩

/-- All-successful call outcomes for an index.js variant 2 run. -/
def env4 : V2Env := ⟨.ok (), .ok [], .ok "S-1", .ok "E-1", .ok "T-1", .ok "C-1"⟩

/-- The C9 scenario notification: `issueKind = "support"`,
`amountMinorUnits = 4999`, `currency = "eur"`. -/
def s9 : RawSession :=
  ⟨some ⟨none, some "sup", some "42", some "support", some "Gold Plan", none⟩,
   some ⟨some "a@b.c", some "Ann", none, none⟩, some 4999, some "eur"⟩

/-- The C9 directory: no pre-existing identity, the create-customer call
succeeds and returns an account id, association succeeds. -/
def dir9 : DirEnv := ⟨.ok (some "acc-1"), fun _ => .ok [], .ok ()⟩

theorem countSearch_nil : countSearch [] = 0 := rfl

theorem countSleep_nil : countSleep [] = 0 := rfl

theorem countSearch_cons_search (k : Nat) (t : List Ev) :
    countSearch (Ev.searchCall k :: t) = countSearch t + 1 := by
  simp [countSearch, List.countP_cons]

theorem countSearch_cons_sleep (ms : Nat) (t : List Ev) :
    countSearch (Ev.sleepMs ms :: t) = countSearch t := by
  simp [countSearch, List.countP_cons]

theorem countSearch_cons_create (t : List Ev) :
    countSearch (Ev.createCall :: t) = countSearch t := by
  simp [countSearch, List.countP_cons]

theorem countSearch_cons_add (t : List Ev) :
    countSearch (Ev.addCall :: t) = countSearch t := by
  simp [countSearch, List.countP_cons]

theorem countSearch_append (t u : List Ev) :
    countSearch (t ++ u) = countSearch t + countSearch u := by
  simp [countSearch, List.countP_append]

theorem countSleep_cons_search (k : Nat) (t : List Ev) :
    countSleep (Ev.searchCall k :: t) = countSleep t := by
  simp [countSleep, List.countP_cons]

theorem countSleep_cons_sleep (ms : Nat) (t : List Ev) :
    countSleep (Ev.sleepMs ms :: t) = countSleep t + 1 := by
  simp [countSleep, List.countP_cons]

theorem countSleep_cons_create (t : List Ev) :
    countSleep (Ev.createCall :: t) = countSleep t := by
  simp [countSleep, List.countP_cons]

theorem countSleep_cons_add (t : List Ev) :
    countSleep (Ev.addCall :: t) = countSleep t := by
  simp [countSleep, List.countP_cons]

theorem countSleep_append (t u : List Ev) :
    countSleep (t ++ u) = countSleep t + countSleep u := by
  simp [countSleep, List.countP_append]

theorem getJira_counts (dir : DirEnv) :
    ∀ n k, countSearch (getJiraAccountIdByEmail dir k n).2.2 ≤ n ∧
      countSleep (getJiraAccountIdByEmail dir k n).2.2 ≤
        countSearch (getJiraAccountIdByEmail dir k n).2.2 - 1 ∧
      (n ≠ 0 → 1 ≤ countSearch (getJiraAccountIdByEmail dir k n).2.2) := by
  intro n
  induction n with
  | zero =>
    intro k
    refine ⟨?_, ?_, ?_⟩ <;> simp [getJiraAccountIdByEmail, countSearch_nil, countSleep_nil]
  | succ m ih =>
    intro k
    simp only [getJiraAccountIdByEmail]
    cases hs : dir.search k with
    | ok l =>
      cases l with
      | nil =>
        by_cases hm : m = 0
        · subst hm
          simp [countSearch_cons_search, countSearch_nil, countSleep_cons_search, countSleep_nil]
        · simp only [hm, if_false]
          obtain ⟨ha, hb, hc⟩ := ih (k + 1)
          have hc1 := hc hm
          simp only [countSearch_cons_search, countSearch_cons_sleep,
            countSleep_cons_search, countSleep_cons_sleep]
          refine ⟨by omega, by omega, fun _ => by omega⟩
      | cons a r =>
        simp [countSearch_cons_search, countSearch_nil, countSleep_cons_search, countSleep_nil]
    | fail e =>
      by_cases hm : m = 0
      · subst hm
        simp [countSearch_cons_search, countSearch_nil, countSleep_cons_search, countSleep_nil]
      · simp only [hm, if_false]
        obtain ⟨ha, hb, hc⟩ := ih (k + 1)
        have hc1 := hc hm
        simp only [countSearch_cons_search, countSearch_cons_sleep,
          countSleep_cons_search, countSleep_cons_sleep]
        refine ⟨by omega, by omega, fun _ => by omega⟩

theorem getJira_fst (dir : DirEnv) :
    ∀ n k, (getJiraAccountIdByEmail dir k n).1 = firstSearchHit dir k n := by
  intro n
  induction n with
  | zero => intro k; rfl
  | succ m ih =>
    intro k
    simp only [getJiraAccountIdByEmail, firstSearchHit]
    cases hs : dir.search k with
    | ok l =>
      cases l with
      | nil =>
        by_cases hm : m = 0
        · subst hm; simp [firstSearchHit]
        · simp [hm, ih]
      | cons a r => simp
    | fail e =>
      by_cases hm : m = 0
      · subst hm; simp [firstSearchHit]
      · simp [hm, ih]

theorem getJira_sleep1500 (dir : DirEnv) :
    ∀ n k ms, Ev.sleepMs ms ∈ (getJiraAccountIdByEmail dir k n).2.2 → ms = 1500 := by
  intro n
  induction n with
  | zero => intro k ms h; simp [getJiraAccountIdByEmail] at h
  | succ m ih =>
    intro k ms h
    simp only [getJiraAccountIdByEmail] at h
    cases hs : dir.search k with
    | ok l =>
      cases l with
      | nil =>
        rw [hs] at h
        by_cases hm : m = 0
        · subst hm; simp at h
        · simp only [hm, if_false, List.mem_cons] at h
          rcases h with h | h | h
          · exact absurd h (by simp)
          · injection h
          · exact ih (k + 1) ms h
      | cons a r => rw [hs] at h; simp at h
    | fail e =>
      rw [hs] at h
      by_cases hm : m = 0
      · subst hm; simp at h
      · simp only [hm, if_false, List.mem_cons] at h
        rcases h with h | h | h
        · exact absurd h (by simp)
        · injection h
        · exact ih (k + 1) ms h

theorem getJira_spec (dir : DirEnv) (n k : Nat) (acc : Option String) (k1 : Nat)
    (t1 : List Ev) (h : getJiraAccountIdByEmail dir k n = (acc, k1, t1)) :
    acc = firstSearchHit dir k n ∧ countSearch t1 ≤ n ∧
      countSleep t1 ≤ countSearch t1 - 1 ∧
      (∀ ms, Ev.sleepMs ms ∈ t1 → ms = 1500) := by
  obtain ⟨ga, gb, _⟩ := getJira_counts dir n k
  have gf := getJira_fst dir n k
  have gs := getJira_sleep1500 dir n k
  rw [h] at ga gb gf gs
  exact ⟨gf, ga, gb, gs⟩

theorem sleep_mem_wrap (t1 : List Ev) (ms : Nat)
    (h : Ev.sleepMs ms ∈ Ev.createCall :: t1 ++ [Ev.addCall]) : Ev.sleepMs ms ∈ t1 := by
  rcases List.mem_cons.mp h with h | h
  · exact absurd h (by simp)
  · rcases List.mem_append.mp h with h | h
    · exact h
    · simp at h

theorem sleep_mem_wrap2 (t1 : List Ev) (ms : Nat)
    (h : Ev.sleepMs ms ∈ Ev.createCall :: t1) : Ev.sleepMs ms ∈ t1 := by
  rcases List.mem_cons.mp h with h | h
  · exact absurd h (by simp)
  · exact h

theorem char_from (dir : DirEnv) (X : Except ErrResponse Bool) (k1 : Nat) (tr : List Ev)
    (hch : checkAndInviteCustomer dir = (X, k1, tr))
    (h1 : countSearch tr ≤ 3)
    (h2 : countSleep tr ≤ countSearch tr - 1)
    (h3 : ∀ ms, Ev.sleepMs ms ∈ tr → ms = 1500)
    (h4 : ∀ b, X = Except.ok b →
      (b = true ↔ createSucceeded dir = true ∧ onboardingResolvedId dir ≠ none)) :
    countSearch (checkAndInviteCustomer dir).2.2 ≤ 3 ∧
    countSleep (checkAndInviteCustomer dir).2.2 ≤
      countSearch (checkAndInviteCustomer dir).2.2 - 1 ∧
    (∀ ms, Ev.sleepMs ms ∈ (checkAndInviteCustomer dir).2.2 → ms = 1500) ∧
    (∀ b, (checkAndInviteCustomer dir).1 = Except.ok b →
      (b = true ↔ createSucceeded dir = true ∧ onboardingResolvedId dir ≠ none)) := by
  rw [hch]
  exact ⟨h1, h2, h3, h4⟩

theorem checkAndInvite_char (dir : DirEnv) :
    countSearch (checkAndInviteCustomer dir).2.2 ≤ 3 ∧
    countSleep (checkAndInviteCustomer dir).2.2 ≤
      countSearch (checkAndInviteCustomer dir).2.2 - 1 ∧
    (∀ ms, Ev.sleepMs ms ∈ (checkAndInviteCustomer dir).2.2 → ms = 1500) ∧
    (∀ b, (checkAndInviteCustomer dir).1 = Except.ok b →
      (b = true ↔ createSucceeded dir = true ∧ onboardingResolvedId dir ≠ none)) := by
  cases hcr : dir.createResult with
  | ok optId =>
    by_cases ht : jsTruthy optId
    · cases optId with
      | none => simp [jsTruthy] at ht
      | some a =>
       have hres : createSucceeded dir = true ∧ onboardingResolvedId dir ≠ none := by
        simp [createSucceeded, onboardingResolvedId, hcr, ht]
       cases had : dir.addResult with
      | ok u =>
        refine char_from dir (Except.ok true) 0 [Ev.createCall, Ev.addCall] ?_ (by decide)
          (by decide) (by intro ms h; simp at h) ?_
        · simp [checkAndInviteCustomer, hcr, ht, had]
        · intro b hb
          simp only [Except.ok.injEq] at hb
          subst hb
          simp [hres]
      | fail e =>
        by_cases habs : isAddAbsorbedP1 e
        · refine char_from dir (Except.ok true) 0 [Ev.createCall, Ev.addCall] ?_ (by decide)
            (by decide) (by intro ms h; simp at h) ?_
          · simp [checkAndInviteCustomer, hcr, ht, had, habs]
          · intro b hb
            simp only [Except.ok.injEq] at hb
            subst hb
            simp [hres]
        · refine char_from dir (Except.error e) 0 [Ev.createCall, Ev.addCall] ?_ (by decide)
            (by decide) (by intro ms h; simp at h) ?_
          · simp [checkAndInviteCustomer, hcr, ht, had, habs]
          · intro b hb; simp at hb
    · rcases hg : getJiraAccountIdByEmail dir 0 3 with ⟨acc, k1, t1⟩
      obtain ⟨gf, ga, gb, gs⟩ := getJira_spec dir 3 0 acc k1 t1 hg
      have hres : onboardingResolvedId dir = firstSearchHit dir 0 3 := by
        simp [onboardingResolvedId, hcr, ht]
      cases acc with
      | none =>
        refine char_from dir (Except.ok false) k1 (Ev.createCall :: t1) ?_ ?_ ?_ ?_ ?_
        · simp [checkAndInviteCustomer, hcr, ht, hg]
        · rw [countSearch_cons_create]; omega
        · rw [countSearch_cons_create, countSleep_cons_create]; omega
        · intro ms h; exact gs ms (sleep_mem_wrap2 t1 ms h)
        · intro b hb
          simp only [Except.ok.injEq] at hb
          subst hb
          simp [createSucceeded, hcr, hres, ← gf]
      | some a =>
        have hres2 : createSucceeded dir = true ∧ onboardingResolvedId dir ≠ none := by
          refine ⟨by simp [createSucceeded, hcr], ?_⟩
          rw [hres, ← gf]
          simp
        cases had : dir.addResult with
        | ok u =>
          refine char_from dir (Except.ok true) k1 (Ev.createCall :: (t1 ++ [Ev.addCall]))
            ?_ ?_ ?_ ?_ ?_
          · simp [checkAndInviteCustomer, hcr, ht, hg, had]
          · rw [countSearch_cons_create, countSearch_append, countSearch_cons_add,
              countSearch_nil]; omega
          · rw [countSearch_cons_create, countSearch_append, countSearch_cons_add,
              countSearch_nil, countSleep_cons_create, countSleep_append,
              countSleep_cons_add, countSleep_nil]; omega
          · intro ms h; exact gs ms (sleep_mem_wrap t1 ms h)
          · intro b hb
            simp only [Except.ok.injEq] at hb
            subst hb
            simp [hres2]
        | fail e =>
          by_cases habs : isAddAbsorbedP1 e
          · refine char_from dir (Except.ok true) k1 (Ev.createCall :: (t1 ++ [Ev.addCall]))
              ?_ ?_ ?_ ?_ ?_
            · simp [checkAndInviteCustomer, hcr, ht, hg, had, habs]
            · rw [countSearch_cons_create, countSearch_append, countSearch_cons_add,
                countSearch_nil]; omega
            · rw [countSearch_cons_create, countSearch_append, countSearch_cons_add,
                countSearch_nil, countSleep_cons_create, countSleep_append,
                countSleep_cons_add, countSleep_nil]; omega
            · intro ms h; exact gs ms (sleep_mem_wrap t1 ms h)
            · intro b hb
              simp only [Except.ok.injEq] at hb
              subst hb
              simp [hres2]
          · refine char_from dir (Except.error e) k1 (Ev.createCall :: (t1 ++ [Ev.addCall]))
              ?_ ?_ ?_ ?_ ?_
            · simp [checkAndInviteCustomer, hcr, ht, hg, had, habs]
            · rw [countSearch_cons_create, countSearch_append, countSearch_cons_add,
                countSearch_nil]; omega
            · rw [countSearch_cons_create, countSearch_append, countSearch_cons_add,
                countSearch_nil, countSleep_cons_create, countSleep_append,
                countSleep_cons_add, countSleep_nil]; omega
            · intro ms h; exact gs ms (sleep_mem_wrap t1 ms h)
            · intro b hb; simp at hb
  | fail e =>
    by_cases hc : isCreateConflict e
    · rcases hg : getJiraAccountIdByEmail dir 0 3 with ⟨acc, k1, t1⟩
      obtain ⟨gf, ga, gb, gs⟩ := getJira_spec dir 3 0 acc k1 t1 hg
      have hcs : createSucceeded dir = false := by simp [createSucceeded, hcr]
      cases acc with
      | none =>
        refine char_from dir (Except.ok false) k1 (Ev.createCall :: t1) ?_ ?_ ?_ ?_ ?_
        · simp [checkAndInviteCustomer, hcr, hc, hg]
        · rw [countSearch_cons_create]; omega
        · rw [countSearch_cons_create, countSleep_cons_create]; omega
        · intro ms h; exact gs ms (sleep_mem_wrap2 t1 ms h)
        · intro b hb
          simp only [Except.ok.injEq] at hb
          subst hb
          simp [hcs]
      | some a =>
        cases had : dir.addResult with
        | ok u =>
          refine char_from dir (Except.ok false) k1 (Ev.createCall :: (t1 ++ [Ev.addCall]))
            ?_ ?_ ?_ ?_ ?_
          · simp [checkAndInviteCustomer, hcr, hc, hg, had]
          · rw [countSearch_cons_create, countSearch_append, countSearch_cons_add,
              countSearch_nil]; omega
          · rw [countSearch_cons_create, countSearch_append, countSearch_cons_add,
              countSearch_nil, countSleep_cons_create, countSleep_append,
              countSleep_cons_add, countSleep_nil]; omega
          · intro ms h; exact gs ms (sleep_mem_wrap t1 ms h)
          · intro b hb
            simp only [Except.ok.injEq] at hb
            subst hb
            simp [hcs]
        | fail e2 =>
          by_cases habs : isAddAbsorbedP1 e2
          · refine char_from dir (Except.ok false) k1 (Ev.createCall :: (t1 ++ [Ev.addCall]))
              ?_ ?_ ?_ ?_ ?_
            · simp [checkAndInviteCustomer, hcr, hc, hg, had, habs]
            · rw [countSearch_cons_create, countSearch_append, countSearch_cons_add,
                countSearch_nil]; omega
            · rw [countSearch_cons_create, countSearch_append, countSearch_cons_add,
                countSearch_nil, countSleep_cons_create, countSleep_append,
                countSleep_cons_add, countSleep_nil]; omega
            · intro ms h; exact gs ms (sleep_mem_wrap t1 ms h)
            · intro b hb
              simp only [Except.ok.injEq] at hb
              subst hb
              simp [hcs]
          · refine char_from dir (Except.error e2) k1 (Ev.createCall :: (t1 ++ [Ev.addCall]))
              ?_ ?_ ?_ ?_ ?_
            · simp [checkAndInviteCustomer, hcr, hc, hg, had, habs]
            · rw [countSearch_cons_create, countSearch_append, countSearch_cons_add,
                countSearch_nil]; omega
            · rw [countSearch_cons_create, countSearch_append, countSearch_cons_add,
                countSearch_nil, countSleep_cons_create, countSleep_append,
                countSleep_cons_add, countSleep_nil]; omega
            · intro ms h; exact gs ms (sleep_mem_wrap t1 ms h)
            · intro b hb; simp at hb
    · refine char_from dir (Except.error e) 0 [Ev.createCall] ?_ (by decide) (by decide)
        (by intro ms h; simp at h) ?_
      · simp [checkAndInviteCustomer, hcr, hc]
      · intro b hb; simp at hb

/-- Claim C1, amended.  For every run of the part_001 identity resolver that
completes without a fatal error: at most 4 directory search attempts occur
(at most 3 during onboarding plus at most 1 afterwards), every delay is
exactly 1.5 s and there are strictly fewer delays than search attempts (none
after the last attempt of a search loop), and `isNewIdentity = true` iff both
service-desk keys were configured, the initial create-customer call succeeded
(with or without an id in its response), and an account id was resolved
before the association step. -/
theorem c1_resolver_amended (dir : DirEnv) (hasKeys : Bool) (res : IdentityResolution)
    (t : List Ev) (h : resolveIdentityP1 dir hasKeys = (Except.ok res, t)) :
    countSearch t ≤ 4 ∧ countSleep t ≤ countSearch t - 1 ∧
    (∀ ms, Ev.sleepMs ms ∈ t → ms = 1500) ∧
    (res.isNewIdentity = true ↔
      hasKeys = true ∧ createSucceeded dir = true ∧ onboardingResolvedId dir ≠ none) := by
  obtain ⟨ca, cb, cs, ciff⟩ := checkAndInvite_char dir
  cases hasKeys with
  | false =>
    rcases hg : getJiraAccountIdByEmail dir 0 1 with ⟨acc, k1, t1⟩
    obtain ⟨gf, ga, gb, gs⟩ := getJira_spec dir 1 0 acc k1 t1 hg
    simp only [resolveIdentityP1, Bool.false_eq_true, if_false, hg] at h
    simp only [Prod.mk.injEq, Except.ok.injEq] at h
    obtain ⟨h1, h2⟩ := h
    subst h1
    subst h2
    refine ⟨by omega, by omega, gs, ?_⟩
    simp
  | true =>
    rcases hcc : checkAndInviteCustomer dir with ⟨r, k1, t1⟩
    rw [hcc] at ca cb cs ciff
    dsimp only at ca cb cs ciff
    simp only [resolveIdentityP1, if_true, hcc] at h
    cases r with
    | error e => simp at h
    | ok w =>
      cases w with
      | true =>
        simp only [if_true, Prod.mk.injEq, Except.ok.injEq] at h
        obtain ⟨h1, h2⟩ := h
        subst h1
        subst h2
        have hc := (ciff true rfl).mp rfl
        refine ⟨by omega, cb, cs, ?_⟩
        simp [hc]
      | false =>
        rcases hg2 : getJiraAccountIdByEmail dir k1 1 with ⟨acc2, k2, t2⟩
        obtain ⟨gf2, ga2, gb2, gs2⟩ := getJira_spec dir 1 k1 acc2 k2 t2 hg2
        simp only [Bool.false_eq_true, if_false, hg2, Prod.mk.injEq, Except.ok.injEq] at h
        obtain ⟨h1, h2⟩ := h
        subst h1
        subst h2
        have hc : ¬(createSucceeded dir = true ∧ onboardingResolvedId dir ≠ none) := by
          intro hcon
          have := (ciff false rfl).mpr hcon
          simp at this
        refine ⟨?_, ?_, ?_, ?_⟩
        · rw [countSearch_append]; omega
        · rw [countSearch_append, countSleep_append]; omega
        · intro ms hms
          rcases List.mem_append.mp hms with hm | hm
          · exact cs ms hm
          · exact gs2 ms hm
        · simp only [IdentityResolution.isNewIdentity]
          constructor
          · intro hfalse; exact absurd hfalse (by simp)
          · rintro ⟨-, hrest⟩; exact absurd hrest hc

/-- Claim C1 counterexample.  The claim states `isNewIdentity = true` iff the
initial create-customer call itself returned an account id, and that at most
3 directory search attempts occur per run.  Both parts fail on part_001: with
a create response that succeeds WITHOUT an id and a first search attempt that
finds the account, the resolver reports `isNewIdentity = true`; and with an
absorbed create conflict and searches that never hit, the run performs 4
search attempts (3 inside onboarding plus 1 afterwards). -/
theorem c1_counterexample :
    (resolveIdentityP1 dirNoIdCreate true).1 = Except.ok ⟨none, true⟩ ∧
    createReturnedId dirNoIdCreate = false ∧
    countSearch (resolveIdentityP1 dirConflictCreate true).2 = 4 := ⟨rfl, rfl, rfl⟩

/-- Witness for `c1_resolver_amended` at a concrete environment: create
succeeds without an id, the first search attempt hits, association succeeds. -/
theorem c1_witness :
    countSearch [Ev.createCall, Ev.searchCall 0, Ev.addCall] ≤ 4 ∧
    ((⟨none, true⟩ : IdentityResolution).isNewIdentity = true ↔
      true = true ∧ createSucceeded dirNoIdCreate = true ∧
        onboardingResolvedId dirNoIdCreate ≠ none) :=
  ⟨(c1_resolver_amended dirNoIdCreate true ⟨none, true⟩
      [Ev.createCall, Ev.searchCall 0, Ev.addCall] rfl).1,
   (c1_resolver_amended dirNoIdCreate true ⟨none, true⟩
      [Ev.createCall, Ev.searchCall 0, Ev.addCall] rfl).2.2.2⟩

/-- Claim C2 counterexample.  A response classified as a conflict by the
claim (HTTP 409) arising at the service-desk association step aborts the
part_001 run: its association handler absorbs only HTTP 400 or a message
containing "already belongs to", so a plain 409 there is re-thrown. -/
theorem c2_counterexample :
    isConflictSignalClaim ⟨409, some "Conflict"⟩ = true ∧
    (checkAndInviteCustomer dirAssocConflict).1 = Except.error ⟨409, some "Conflict"⟩ :=
  ⟨rfl, rfl⟩

/-- Claim C2, amended.  A run aborts only on a create error that is not a
create-conflict (409 / "already exists") or on an association error outside
the variant's absorbed set — HTTP 400 / "already belongs to" in part_001,
HTTP 409 / "already belongs to" in index.js variant 1; search-step errors
never abort, and an absorbed create conflict followed by a successful
association completes the onboarding normally. -/
theorem c2_amended :
    (∀ dir e2, (checkAndInviteCustomer dir).1 = Except.error e2 →
      ((dir.createResult = CallResult.fail e2 ∧ isCreateConflict e2 = false) ∨
       (dir.addResult = CallResult.fail e2 ∧ isAddAbsorbedP1 e2 = false))) ∧
    (∀ dir e, dir.createResult = CallResult.fail e → isCreateConflict e = true →
      dir.addResult = CallResult.ok () →
      (checkAndInviteCustomer dir).1 = Except.ok false) ∧
    (∀ env e2, checkAndInviteCustomerV1 env = Except.error e2 →
      ((env.createResult = CallResult.fail e2 ∧ isCreateConflict e2 = false) ∨
       (env.addResult = CallResult.fail e2 ∧ isAddAbsorbedV1 e2 = false))) := by
  refine ⟨?_, ?_, ?_⟩
  · intro dir e2 herr
    cases hcr : dir.createResult with
    | ok optId =>
      by_cases ht : jsTruthy optId
      · cases optId with
        | none => simp [jsTruthy] at ht
        | some a =>
          cases had : dir.addResult with
          | ok u => simp [checkAndInviteCustomer, hcr, ht, had] at herr
          | fail e =>
            by_cases habs : isAddAbsorbedP1 e
            · simp [checkAndInviteCustomer, hcr, ht, had, habs] at herr
            · simp [checkAndInviteCustomer, hcr, ht, had, habs] at herr
              subst herr
              exact Or.inr ⟨rfl, by simpa using habs⟩
      · rcases hg : getJiraAccountIdByEmail dir 0 3 with ⟨acc, k1, t1⟩
        cases acc with
        | none => simp [checkAndInviteCustomer, hcr, ht, hg] at herr
        | some a =>
          cases had : dir.addResult with
          | ok u => simp [checkAndInviteCustomer, hcr, ht, hg, had] at herr
          | fail e =>
            by_cases habs : isAddAbsorbedP1 e
            · simp [checkAndInviteCustomer, hcr, ht, hg, had, habs] at herr
            · simp [checkAndInviteCustomer, hcr, ht, hg, had, habs] at herr
              subst herr
              exact Or.inr ⟨rfl, by simpa using habs⟩
    | fail e =>
      by_cases hc : isCreateConflict e
      · rcases hg : getJiraAccountIdByEmail dir 0 3 with ⟨acc, k1, t1⟩
        cases acc with
        | none => simp [checkAndInviteCustomer, hcr, hc, hg] at herr
        | some a =>
          cases had : dir.addResult with
          | ok u => simp [checkAndInviteCustomer, hcr, hc, hg, had] at herr
          | fail e3 =>
            by_cases habs : isAddAbsorbedP1 e3
            · simp [checkAndInviteCustomer, hcr, hc, hg, had, habs] at herr
            · simp [checkAndInviteCustomer, hcr, hc, hg, had, habs] at herr
              subst herr
              exact Or.inr ⟨rfl, by simpa using habs⟩
      · simp [checkAndInviteCustomer, hcr, hc] at herr
        subst herr
        exact Or.inl ⟨rfl, by simpa using hc⟩
  · intro dir e hcr hc had
    rcases hg : getJiraAccountIdByEmail dir 0 3 with ⟨acc, k1, t1⟩
    cases acc with
    | none => simp [checkAndInviteCustomer, hcr, hc, hg]
    | some a => simp [checkAndInviteCustomer, hcr, hc, hg, had]
  · intro env e2 herr
    cases hcr : env.createResult with
    | ok u =>
      cases had : env.addResult with
      | ok v => simp [checkAndInviteCustomerV1, hcr, had] at herr
      | fail e =>
        by_cases habs : isAddAbsorbedV1 e
        · simp [checkAndInviteCustomerV1, hcr, had, habs] at herr
        · simp [checkAndInviteCustomerV1, hcr, had, habs] at herr
          subst herr
          exact Or.inr ⟨rfl, by simpa using habs⟩
    | fail e =>
      by_cases hc : isCreateConflict e
      · cases had : env.addResult with
        | ok v => simp [checkAndInviteCustomerV1, hcr, hc, had] at herr
        | fail e3 =>
          by_cases habs : isAddAbsorbedV1 e3
          · simp [checkAndInviteCustomerV1, hcr, hc, had, habs] at herr
          · simp [checkAndInviteCustomerV1, hcr, hc, had, habs] at herr
            subst herr
            exact Or.inr ⟨rfl, by simpa using habs⟩
      · simp [checkAndInviteCustomerV1, hcr, hc] at herr
        subst herr
        exact Or.inl ⟨rfl, by simpa using hc⟩

/-- Witness for `c2_amended` at the concrete association-conflict
environment. -/
theorem c2_witness :
    (dirAssocConflict.createResult = CallResult.fail ⟨409, some "Conflict"⟩ ∧
      isCreateConflict ⟨409, some "Conflict"⟩ = false) ∨
    (dirAssocConflict.addResult = CallResult.fail ⟨409, some "Conflict"⟩ ∧
      isAddAbsorbedP1 ⟨409, some "Conflict"⟩ = false) :=
  c2_amended.1 dirAssocConflict ⟨409, some "Conflict"⟩ rfl

theorem isPrefixOf_self (l : List Char) : l.isPrefixOf l = true := by
  induction l with
  | nil => rfl
  | cons a t ih => simp [List.isPrefixOf, ih]

theorem strIncludes_append_right (a b : String) : strIncludes (a ++ b) b = true := by
  simp only [strIncludes, List.any_eq_true, List.mem_range]
  refine ⟨a.data.length, ?_, ?_⟩
  · have hd : (a ++ b).data = a.data ++ b.data := String.data_append a b
    rw [hd, List.length_append]
    omega
  · have hd : (a ++ b).data = a.data ++ b.data := String.data_append a b
    rw [hd, List.drop_left]
    exact isPrefixOf_self b.data

/-- Claim C3 counterexample.  In part_000 a notification whose `issueKind`
case-insensitively equals "support" but whose service-desk project key is
not configured falls through to the workspace-project flow: a parent/child
(Epic/Task) pair is created and no service-desk record at all, contradicting
"exactly one service-desk record ... regardless of which other routing keys
are present or absent". -/
theorem c3_counterexample :
    strToLower (issueTypeOf s3) = "support" ∧
    ((processCheckoutSessionP0 s3 ⟨none, none⟩ 0 (CallResult.ok []) "E-1" "T-1").map
      (fun rs => rs.map (fun r => r.kind))) = some [RecKind.parent, RecKind.child] :=
  ⟨by decide, by decide⟩

/-- Claim C3, amended.  When `issueKind` is case-insensitively "support" AND
a service-desk project key is configured, part_000 creates exactly one
service-desk record and no parent/child pair; index.js variant 2 does so for
every "support" notification whose onboarding call succeeds, with no key
requirement. -/
theorem c3_support_amended :
    (∀ s ev nowMs sres ek tk recs,
      strToLower (issueTypeOf s) = "support" →
      jsTruthy (jsmProjectKeyOf s ev) = true →
      processCheckoutSessionP0 s ev nowMs sres ek tk = some recs →
      countKind RecKind.serviceDesk recs = 1 ∧ countKind RecKind.parent recs = 0 ∧
        countKind RecKind.child recs = 0) ∧
    (∀ s ev dom nowMs env r,
      strToLower (issueTypeOf s) = "support" →
      env.inviteResult = CallResult.ok () →
      processCheckoutSessionV2 s ev dom nowMs env = some r →
      countKind RecKind.serviceDesk r.records = 1 ∧ countKind RecKind.parent r.records = 0 ∧
        countKind RecKind.child r.records = 0) := by
  constructor
  · intro s ev nowMs sres ek tk recs hsup hkey hrun
    cases hd : computeDates nowMs (durationOf s) with
    | none => simp [processCheckoutSessionP0, hd] at hrun
    | some dates =>
      simp only [processCheckoutSessionP0, hd, hsup, hkey, Option.some.injEq] at hrun
      simp at hrun
      subst hrun
      simp [countKind, createJsmSupportTicket]
  · intro s ev dom nowMs env r hsup hinv hrun
    cases hd : computeDates nowMs (durationOf s) with
    | none => simp [processCheckoutSessionV2, hd] at hrun
    | some dates =>
      simp only [processCheckoutSessionV2, hd, hsup, hinv] at hrun
      simp at hrun
      cases hsk : env.supportKey with
      | ok v =>
        rw [hsk] at hrun
        simp at hrun
        subst hrun
        simp [countKind]
      | fail e =>
        rw [hsk] at hrun
        simp at hrun
        subst hrun
        simp [countKind]

/-- Witness for `c3_support_amended` at a concrete "support" notification
with the service-desk key configured. -/
theorem c3_witness :
    countKind RecKind.serviceDesk
        ((processCheckoutSessionP0 s3b ⟨none, none⟩ 0 (CallResult.ok []) "E" "T").getD []) = 1 ∧
      countKind RecKind.parent
        ((processCheckoutSessionP0 s3b ⟨none, none⟩ 0 (CallResult.ok []) "E" "T").getD []) = 0 ∧
      countKind RecKind.child
        ((processCheckoutSessionP0 s3b ⟨none, none⟩ 0 (CallResult.ok []) "E" "T").getD []) = 0 :=
  c3_support_amended.1 s3b ⟨none, none⟩ 0 (CallResult.ok []) "E" "T"
    ((processCheckoutSessionP0 s3b ⟨none, none⟩ 0 (CallResult.ok []) "E" "T").getD [])
    (by decide) (by decide) (by decide)

/-- Claim C4.  For every notification whose `issueKind` is not "support"
(case-insensitively) and whose workspace project key is configured, when the
external calls succeed, index.js variant 2 creates exactly one parent record
and one child record, the child's Epic link carries the identifier the
parent creation returned, and — when a service-desk key is also
configured — exactly one confirmation record whose body contains the child
record's identifier. -/
theorem c4_parent_child_confirmation (s : RawSession) (ev : EnvVars) (dom : String)
    (nowMs : Int) (env : V2Env) (r : V2Run) (ek tk ck : String)
    (hsup : strToLower (issueTypeOf s) ≠ "support")
    (hkey : jsTruthy (projectKeyOf s) = true)
    (hinv : env.inviteResult = CallResult.ok ())
    (hek : env.epicKey = CallResult.ok ek)
    (htk : env.taskKey = CallResult.ok tk)
    (hck : env.confKey = CallResult.ok ck)
    (hrun : processCheckoutSessionV2 s ev dom nowMs env = some r) :
    countKind RecKind.parent r.records = 1 ∧ countKind RecKind.child r.records = 1 ∧
    (∀ rec ∈ r.records, rec.kind = RecKind.child → rec.parentLink = some ek) ∧
    (jsTruthy ev.jsmProjectKey = true →
      countKind RecKind.confirmation r.records = 1 ∧
      ∀ rec ∈ r.records, rec.kind = RecKind.confirmation →
        strIncludes rec.description tk = true) := by
  cases hd : computeDates nowMs (durationOf s) with
  | none => simp [processCheckoutSessionV2, hd] at hrun
  | some dates =>
    have hsupb : (strToLower (issueTypeOf s) == "support") = false := by
      simpa using hsup
    simp only [processCheckoutSessionV2, hd, hsupb, hkey, hinv, hek, htk, hck] at hrun
    simp at hrun
    subst hrun
    refine ⟨by simp [countKind], by simp [countKind], ?_, ?_⟩
    · intro rec hmem hkind
      simp only [List.mem_cons, List.not_mem_nil] at hmem
      rcases hmem with h | h | h | h
      · subst h; simp at hkind
      · subst h; rfl
      · subst h; simp at hkind
      · exact absurd h (by simp)
    · intro _
      refine ⟨by simp [countKind], ?_⟩
      intro rec hmem hkind
      simp only [List.mem_cons, List.not_mem_nil] at hmem
      rcases hmem with h | h | h | h
      · subst h; simp at hkind
      · subst h; simp at hkind
      · subst h
        exact strIncludes_append_right _ tk
      · exact absurd h (by simp)

/-- Witness for `c4_parent_child_confirmation` at a concrete non-support
notification with all calls succeeding. -/
theorem c4_witness :
    countKind RecKind.parent
        ((processCheckoutSessionV2 s4 ⟨some "SUP", none⟩ "d" 0 env4).getD
          ⟨none, [], false⟩).records = 1 ∧
      countKind RecKind.child
        ((processCheckoutSessionV2 s4 ⟨some "SUP", none⟩ "d" 0 env4).getD
          ⟨none, [], false⟩).records = 1 :=
  ⟨(c4_parent_child_confirmation s4 ⟨some "SUP", none⟩ "d" 0 env4
      ((processCheckoutSessionV2 s4 ⟨some "SUP", none⟩ "d" 0 env4).getD ⟨none, [], false⟩)
      "E-1" "T-1" "C-1" (by decide) (by decide) rfl rfl rfl rfl (by decide)).1,
   (c4_parent_child_confirmation s4 ⟨some "SUP", none⟩ "d" 0 env4
      ((processCheckoutSessionV2 s4 ⟨some "SUP", none⟩ "d" 0 env4).getD ⟨none, [], false⟩)
      "E-1" "T-1" "C-1" (by decide) (by decide) rfl rfl rfl rfl (by decide)).2.1⟩

/-- Claim C5.  In part_001 every issued creation call receives the reporter
built from the run's `IdentityResolution`: the tagged `accountId` choice
exactly when the resolution carries an account id, the `emailAddress`
fallback exactly when it does not; likewise in index.js variant 2 relative
to its resolved account id (its parent-record creation carries no reporter
at all and is therefore not constrained). -/
theorem c5_reporter_preference :
    (∀ s ev nowMs dir r res rec rr,
      processCheckoutSessionP1 s ev nowMs dir = some r →
      r.resolution = some res →
      rec ∈ r.records → rec.reporter = some rr →
      rr = reporterOf res.accountId (customerDataOf s).email) ∧
    (∀ s ev dom nowMs env r rec rr,
      processCheckoutSessionV2 s ev dom nowMs env = some r →
      rec ∈ r.records → rec.reporter = some rr →
      rr = reporterOf r.accountId (customerDataOf s).email) := by
  constructor
  · intro s ev nowMs dir r res rec rr hrun hres hmem hrep
    cases hd : computeDates nowMs (durationOf s) with
    | none => simp [processCheckoutSessionP1, hd] at hrun
    | some dates =>
      simp only [processCheckoutSessionP1, hd] at hrun
      rcases hrid : resolveIdentityP1 dir
          (jsTruthy (jsmProjectKeyOf s ev) && jsTruthy (jsmServiceDeskIdOf s ev)) with ⟨rr0, t⟩
      rw [hrid] at hrun
      cases rr0 with
      | error e =>
        simp at hrun
        subst hrun
        simp at hres
      | ok res0 =>
        simp at hrun
        subst hrun
        simp at hres
        subst hres
        by_cases hjk : jsTruthy (jsmProjectKeyOf s ev)
        · simp only [hjk, if_true, List.mem_singleton] at hmem
          subst hmem
          simp [createJsmCustomerRequest] at hrep
          exact hrep.symm
        · simp [hjk] at hmem
  · intro s ev dom nowMs env r rec rr hrun hmem hrep
    cases hd : computeDates nowMs (durationOf s) with
    | none => simp [processCheckoutSessionV2, hd] at hrun
    | some dates =>
      simp only [processCheckoutSessionV2, hd] at hrun
      by_cases hguard : (!jsTruthy (projectKeyOf s) &&
          !(strToLower (issueTypeOf s) == "support")) = true
      · rw [if_pos hguard] at hrun
        simp at hrun
        subst hrun
        simp at hmem
      · rw [if_neg hguard] at hrun
        cases hinv : env.inviteResult with
        | fail e =>
          rw [hinv] at hrun
          simp at hrun
          subst hrun
          simp at hmem
        | ok u =>
          rw [hinv] at hrun
          by_cases hsup : (strToLower (issueTypeOf s) == "support") = true
          · simp only [hsup, if_true] at hrun
            cases hsk : env.supportKey with
            | ok v =>
              rw [hsk] at hrun
              simp at hrun
              subst hrun
              simp at hmem
              subst hmem
              simp at hrep
              exact hrep.symm
            | fail e =>
              rw [hsk] at hrun
              simp at hrun
              subst hrun
              simp at hmem
              subst hmem
              simp at hrep
              exact hrep.symm
          · simp only [Bool.not_eq_true] at hsup
            simp only [hsup, Bool.false_eq_true, if_false] at hrun
            cases hek : env.epicKey with
            | fail e =>
              rw [hek] at hrun
              simp at hrun
              subst hrun
              simp at hmem
              subst hmem
              simp at hrep
            | ok ek =>
              rw [hek] at hrun
              cases htk : env.taskKey with
              | fail e =>
                rw [htk] at hrun
                simp at hrun
                subst hrun
                simp at hmem
                rcases hmem with h | h
                · subst h; simp at hrep
                · subst h
                  simp at hrep
                  exact hrep.symm
              | ok tk =>
                rw [htk] at hrun
                cases hck : env.confKey with
                | ok cv =>
                  rw [hck] at hrun
                  simp at hrun
                  subst hrun
                  simp at hmem
                  rcases hmem with h | h | h
                  · subst h; simp at hrep
                  · subst h
                    simp at hrep
                    exact hrep.symm
                  · subst h
                    simp at hrep
                    exact hrep.symm
                | fail e =>
                  rw [hck] at hrun
                  simp at hrun
                  subst hrun
                  simp at hmem
                  rcases hmem with h | h | h
                  · subst h; simp at hrep
                  · subst h
                    simp at hrep
                    exact hrep.symm
                  · subst h
                    simp at hrep
                    exact hrep.symm

/-- Witness for `c5_reporter_preference` at the concrete part_001 run of the
`s9` scenario, whose single creation call receives the email fallback
because the run's resolution carries no account id. -/
theorem c5_witness :
    ReporterRef.emailAddress (some "a@b.c") =
      reporterOf (⟨none, true⟩ : IdentityResolution).accountId (customerDataOf s9).email :=
  c5_reporter_preference.1 s9 ⟨none, none⟩ 0 dir9
    ((processCheckoutSessionP1 s9 ⟨none, none⟩ 0 dir9).getD ⟨none, none, [], []⟩)
    ⟨none, true⟩
    (createJsmCustomerRequest "Gold Plan" none (ReporterRef.emailAddress (some "a@b.c"))
      (customerDataOf s9) "1970-01-01" "1970-01-06")
    (ReporterRef.emailAddress (some "a@b.c"))
    (by decide) (by decide) (by decide) (by decide)

/-- Claim C6 counterexample.  A non-numeric `durationDays` does not resolve
to 5: `parseInt("x", 10)` is `NaN` and the run's date computation fails
instead of defaulting. -/
theorem c6_counterexample :
    jsParseInt10 "x" = none ∧ resolvedDurationDays (some "x") ≠ some 5 := by decide

/-- Claim C6, amended.  An absent (or empty, hence falsy) `durationDays`
resolves to 5, but a non-numeric one parses to `NaN` and makes the date
computation throw; whenever the duration is a number `n`, the computed
`endDate` is the rendering of exactly `startDate`'s UTC day number plus `n`,
and both rendered dates depend only on the UTC day of the current time, not
on the time of day. -/
theorem c6_duration_dates_amended :
    (∀ md, jsTruthy md = false → resolvedDurationDays md = some 5) ∧
    (resolvedDurationDays (some "x") = none ∧
      computeDates 0 (resolvedDurationDays (some "x")) = none) ∧
    (∀ nowMs n, computeDates nowMs (some n) =
      some (dateStr (epochDay nowMs), dateStr (epochDay nowMs + n))) ∧
    (∀ t u d, epochDay t = epochDay u → computeDates t d = computeDates u d) := by
  refine ⟨?_, by decide, ?_, ?_⟩
  · intro md h
    cases md with
    | none => decide
    | some v =>
      simp [jsTruthy] at h
      subst h
      decide
  · intro nowMs n
    have hday : epochDay (nowMs + n * 86400000) = epochDay nowMs + n := by
      simp only [epochDay]
      omega
  

    simp [computeDates, hday]
  · intro t u d h
    cases d with
    | none => rfl
    | some n =>
      have hday : epochDay (t + n * 86400000) = epochDay (u + n * 86400000) := by
        simp only [epochDay] at h ⊢
        omega
      simp [computeDates, h, hday]

/-- Witness for `c6_duration_dates_amended`: the absent-duration default and
time-of-day independence at noon versus midnight of the same day. -/
theorem c6_witness :
    resolvedDurationDays none = some 5 ∧
    computeDates 0 (some 5) = computeDates 43200000 (some 5) :=
  ⟨c6_duration_dates_amended.1 none rfl,
   c6_duration_dates_amended.2.2.2 0 43200000 (some 5) (by decide)⟩

/-- Claim C7 counterexample.  In the express-app variant a verified
checkout notification whose Jira calls fail receives HTTP 500, not a
success acknowledgment: the response depends on the downstream outcome. -/
theorem c7_counterexample :
    (⟨some "raw", true, "", "checkout.session.completed"⟩ : InboundReq).sigOk = true ∧
    stripetojiraExpress ⟨some "raw", true, "", "checkout.session.completed"⟩
      (CallResult.fail ⟨500, none⟩) (CallResult.ok "T-1") =
      HttpResponse.err500 "Failed to create Jira issue" := ⟨rfl, rfl⟩

/-- Claim C7, amended.  The cloud-function handler always answers 200
"Event received" once the raw body is present and verification passes, and
its response never depends on the downstream outcome; the express-app
variant instead awaits the Jira calls and answers 200 or 500 according to
their outcome. -/
theorem c7_ack_amended :
    (∀ req df, req.rawBody ≠ none → req.sigOk = true →
      (stripetojira req df).response = HttpResponse.ok200 "Event received") ∧
    (∀ req df df2, (stripetojira req df).response = (stripetojira req df2).response) ∧
    (∀ req er tr, req.sigOk = true → req.eventType = "checkout.session.completed" →
      (stripetojiraExpress req er tr = HttpResponse.ok200 "Jira Epic and Task created" ∨
       stripetojiraExpress req er tr = HttpResponse.err500 "Failed to create Jira issue")) := by
  refine ⟨?_, ?_, ?_⟩
  · intro req df hraw hsig
    cases hr : req.rawBody with
    | none => exact absurd hr hraw
    | some b => simp [stripetojira, hr, hsig]
  · intro req df df2
    cases hr : req.rawBody with
    | none => simp [stripetojira, hr]
    | some b =>
      by_cases hsig : req.sigOk
      · simp [stripetojira, hr, hsig]
      · simp [stripetojira, hr, hsig]
  · intro req er tr hsig hev
    cases er with
    | fail e => right; simp [stripetojiraExpress, hsig, hev]
    | ok ek =>
      cases tr with
      | fail e => right; simp [stripetojiraExpress, hsig, hev]
      | ok tk => left; simp [stripetojiraExpress, hsig, hev]

/-- Witness for `c7_ack_amended` at a verified non-checkout request. -/
theorem c7_witness :
    (stripetojira ⟨some "raw", true, "", "other.event"⟩ true).response =
      HttpResponse.ok200 "Event received" :=
  c7_ack_amended.1 ⟨some "raw", true, "", "other.event"⟩ true (by simp) rfl

/-- Claim C8 counterexample.  On a notification missing BOTH nested objects
the normalizer does not fail with a `MalformedEventError` (no such error
exists anywhere in the code): it succeeds, producing the fully defaulted
customer view. -/
theorem c8_counterexample :
    customerDataOf ⟨none, none, none, none⟩ =
      ⟨"N/A", none, "N/A", "N/A", "0.00 EUR"⟩ := by decide

/-- Claim C8, amended.  The payload normalizer is total and never fails:
missing nested objects default to empty objects, missing contact name and
phone default to "N/A", and missing address components are dropped (not
defaulted) before joining, with "N/A" only when no component remains. -/
theorem c8_normalizer_amended :
    (∀ s, s.customer_details = none →
      (customerDataOf s).name = "N/A" ∧ (customerDataOf s).phone = "N/A" ∧
      (customerDataOf s).address = "N/A" ∧ (customerDataOf s).email = none) ∧
    companyAddressOf ⟨some "12 Elm St", none, some "T12", some "IE"⟩ = "12 Elm St, T12, IE" ∧
    companyAddressOf ⟨none, none, none, none⟩ = "N/A" := by
  refine ⟨?_, by decide, by decide⟩
  intro s h
  simp [customerDataOf, detailsOf, h]
  decide

/-- Witness for `c8_normalizer_amended` at a notification carrying metadata
but no customer details. -/
theorem c8_witness :
    (customerDataOf ⟨some default, none, none, none⟩).name = "N/A" ∧
    (customerDataOf ⟨some default, none, none, none⟩).phone = "N/A" ∧
    (customerDataOf ⟨some default, none, none, none⟩).address = "N/A" ∧
    (customerDataOf ⟨some default, none, none, none⟩).email = none :=
  c8_normalizer_amended.1 ⟨some default, none, none, none⟩ rfl

/-- Claim C9 counterexample.  In the part_001 end-to-end scenario the
created record's summary is the raw `<summary>` ("Gold Plan"), not
"Support Request for <summary>": part_001's `createJsmCustomerRequest` sets
the summary field without the prefix. -/
theorem c9_counterexample :
    ((processCheckoutSessionP1 s9 ⟨none, none⟩ 0 dir9).map
      (fun r => r.records.map (fun x => x.summary))) = some ["Gold Plan"] ∧
    ¬("Gold Plan" = "Support Request for " ++ "Gold Plan") := ⟨by decide, by decide⟩

set_option maxRecDepth 8192 in
/-- Claim C9, amended.  In the scenario (support kind, 4999 minor units,
"eur", no prior identity, creation returns an id): `isNewIdentity = true`
and the amount renders as "49.99 EUR" in the record's "Amount Paid" line as
claimed, but the record summary equals the raw summary; the
"Support Request for" prefix exists only in the index.js
`createJsmSupportTicket` builder. -/
theorem c9_scenario_amended :
    ((processCheckoutSessionP1 s9 ⟨none, none⟩ 0 dir9).bind
      (fun r => r.resolution)).map (fun res => res.isNewIdentity) = some true ∧
    (customerDataOf s9).amount = "49.99 EUR" ∧
    ((processCheckoutSessionP1 s9 ⟨none, none⟩ 0 dir9).map
      (fun r => r.records.map (fun x => x.summary))) = some ["Gold Plan"] ∧
    ((processCheckoutSessionP1 s9 ⟨none, none⟩ 0 dir9).map
      (fun r => r.records.map
        (fun x => strIncludes x.description "Amount Paid: 49.99 EUR"))) = some [true] ∧
    (createJsmSupportTicket "Gold Plan" (some "SUP")
      (ReporterRef.emailAddress (some "a@b.c")) (customerDataOf s9)
      "1970-01-01" "1970-01-06").summary = "Support Request for Gold Plan" :=
  ⟨by decide, by decide, by decide, by decide, by decide⟩

/-- Claim C10.  A request without a raw body is answered 400
"Webhook Error: Missing raw body" with signature verification never
attempted and no orchestration scheduled. -/
theorem c10_missing_raw_body (req : InboundReq) (df : Bool) (h : req.rawBody = none) :
    stripetojira req df =
      ⟨HttpResponse.bad400 "Webhook Error: Missing raw body", false, false, false⟩ := by
  simp [stripetojira, h]

/-- Witness for `c10_missing_raw_body` at a concrete body-less request. -/
theorem c10_witness :
    stripetojira ⟨none, true, "", "checkout.session.completed"⟩ true =
      ⟨HttpResponse.bad400 "Webhook Error: Missing raw body", false, false, false⟩ :=
  c10_missing_raw_body ⟨none, true, "", "checkout.session.completed"⟩ true rfl
